import Mathlib

/-!
Shallow embedding of the induction-visualizer screen (src/App.js).

The app models the phone as a 10-turn coil in a uniform magnetic field.
State lives in five reactive variables (theta, fieldStrength, phi, emf,
prevPhi); derived render values (outOfScreen, intoScreen, arrowHeight,
the glyph grid and the EMF indicator row) are pure functions of that
state.  All numeric quantities are embedded as real numbers.
-/

namespace InductionApp

noncomputable section

/-- Width of the reference device screen in meters (src/App.js line 11). -/
def screenWidthMeters : ℝ := 0.0709

/-- Height of the reference device screen in meters (src/App.js line 12). -/
def screenHeightMeters : ℝ := 0.1436

/-- Coil area constant (src/App.js line 14). -/
def phoneArea : ℝ := screenWidthMeters * screenHeightMeters

/-- Flux from field strength, area and (degree) angle (src/App.js line 34):
B * A * cos(((rads - 90) * pi) / 180). -/
def calculateFlux (B A rads : ℝ) : ℝ :=
  B * A * Real.cos (((rads - 90) * Real.pi) / 180)

/-- Threshold for displaying the circle glyph (src/App.js line 25). -/
def outOfScreen (theta : ℝ) : Prop := theta ≥ 80

/-- Threshold for displaying the circle-with-cross glyph (src/App.js line 26). -/
def intoScreen (theta : ℝ) : Prop := theta ≤ -80

instance (theta : ℝ) : Decidable (outOfScreen theta) :=
  inferInstanceAs (Decidable (80 ≤ theta))

instance (theta : ℝ) : Decidable (intoScreen theta) :=
  inferInstanceAs (Decidable (theta ≤ -80))

/-- Rendered arrow height (src/App.js lines 29-31). -/
def arrowHeight (theta : ℝ) : ℝ :=
  if intoScreen theta ∨ outOfScreen theta then 40
  else (|90 - theta| / 90) * 40

/-- The five reactive state variables of the screen (src/App.js lines 17-21). -/
structure AppState where
  theta : ℝ
  fieldStrength : ℝ
  phi : ℝ
  emf : ℝ
  prevPhi : ℝ

/-- Initial state: theta 0, field strength 1, phi 0, emf 0, prevPhi 0
(src/App.js lines 17-21). -/
def initialState : AppState :=
  { theta := 0, fieldStrength := 1, phi := 0, emf := 0, prevPhi := 0 }

/-- One EMF sampling tick (src/App.js lines 42-49): sets
emf := -1 * 10 * (deltaPhi / deltaT) with deltaT = 1, then prevPhi := phi. -/
def calculateEmf (s : AppState) : AppState :=
  let deltaPhi := s.phi - s.prevPhi
  let deltaT : ℝ := 1
  { s with emf := -1 * 10 * (deltaPhi / deltaT), prevPhi := s.phi }

/-- Radian-to-degree conversion used by the motion listener
(src/App.js line 84): (beta * 180) / pi. -/
def degreesOfRotation (beta : ℝ) : ℝ := (beta * 180) / Real.pi

/-- Applying setTheta: the flux effect (src/App.js lines 37-39) recomputes
phi from the current field strength and the new angle. -/
def setThetaAndRecompute (s : AppState) (angle : ℝ) : AppState :=
  { s with theta := angle,
           phi := calculateFlux s.fieldStrength phoneArea angle }

/-- The motion listener callback (src/App.js lines 83-90).  The comparison
value thetaCaptured is the theta variable closed over by the callback: the
mount effect runs once, so it is the theta of the render that registered
the listener.  If |thetaCaptured - angle| >= 1 the reading is accepted
(setTheta fires, and with it the flux effect); otherwise nothing happens. -/
def listenerStep (thetaCaptured : ℝ) (s : AppState) (beta : ℝ) : AppState :=
  let angle := degreesOfRotation beta
  if 1 ≤ |thetaCaptured - angle| then setThetaAndRecompute s angle else s

/-- The five icon glyphs requested by name from the icon set. -/
inductive GlyphName where
  | arrowLongLeft
  | arrowLongRight
  | arrowLongDown
  | circle
  | circleWithCross
  deriving DecidableEq

/-- Glyph drawn in an even grid slot (src/App.js lines 154-159):
circle when outOfScreen, circle-with-cross when intoScreen, else the long
downward arrow. -/
def glyphName (theta : ℝ) : GlyphName :=
  if outOfScreen theta then .circle
  else if intoScreen theta then .circleWithCross
  else .arrowLongDown

/-- Glyph size in an even grid slot (src/App.js line 160). -/
def glyphSize (theta : ℝ) : ℕ :=
  if outOfScreen theta ∨ intoScreen theta then 20 else 40

/-- Height of a glyph cell (src/App.js line 146). -/
def cellHeight (theta : ℝ) : ℝ :=
  if intoScreen theta ∨ outOfScreen theta then 20 else arrowHeight theta

/-- Vertical margin of a glyph cell (src/App.js line 147). -/
def cellMarginVertical (theta : ℝ) : ℝ :=
  if intoScreen theta ∨ outOfScreen theta then 10
  else (40 - arrowHeight theta) / 2

/-- A node of the EMF indicator row: an icon glyph or the emf label. -/
inductive RowNode where
  | icon (name : GlyphName) (size : ℕ)
  | label (emf : ℝ)

/-- The EMF indicator row (src/App.js lines 112-130), rendered left to
right: a left arrow exactly when emf > 0, then the label, then a right
arrow exactly when emf < 0. -/
def indicatorRow (emf : ℝ) : List RowNode :=
  (if emf > 0 then [RowNode.icon .arrowLongLeft 20] else []) ++
  [RowNode.label emf] ++
  (if emf < 0 then [RowNode.icon .arrowLongRight 20] else [])

/-- A slot of the field-line grid: a glyph cell or a fixed-width spacer. -/
inductive Slot where
  | glyphCell (height marginV : ℝ) (name : GlyphName) (size : ℕ) (opacity : ℝ)
  | spacer (width : ℕ)

/-- Whether a slot is a glyph cell (as opposed to a spacer). -/
def Slot.isGlyphCell : Slot → Bool
  | .glyphCell _ _ _ _ _ => true
  | .spacer _ => false

/-- One slot of the field-line grid (src/App.js lines 142-164): slots of
even index render the glyph cell, odd ones a spacer of width 60. -/
def gridSlot (theta fieldStrength : ℝ) (index : ℕ) : Slot :=
  if index % 2 = 0 then
    .glyphCell (cellHeight theta) (cellMarginVertical theta) (glyphName theta)
      (glyphSize theta) (fieldStrength / 10)
  else .spacer 60

/-- The field-line grid: 50 slots (src/App.js line 142). -/
def fieldLineGrid (theta fieldStrength : ℝ) : List Slot :=
  (List.range 50).map (gridSlot theta fieldStrength)

/-- The mount effect (src/App.js lines 73-92): a subscriber handle exists
after mount exactly when the platform reports the sensor available. -/
def subscribeOnMount (isAvailable : Bool) : Option Unit :=
  if isAvailable then some () else none

/-- The unmount cleanup (src/App.js lines 94-98): remove is called exactly
when a subscriber handle was stored. -/
def removeCalledOnUnmount (subscriber : Option Unit) : Bool :=
  subscriber.isSome

/-- Lifetime of the screen as far as the sensor is concerned: when the
sensor is available the registered listener (which captured the mount-time
theta) folds over the delivered rotation readings; when it is unavailable
no listener exists and the state never changes. -/
def runWithSensor (isAvailable : Bool) (s0 : AppState) (events : List ℝ) :
    AppState :=
  if isAvailable then events.foldl (listenerStep s0.theta) s0 else s0

end

/-- Strictly between the two 80-degree thresholds neither extreme holds. -/
theorem not_extreme_of_mid {theta : ℝ} (h1 : -80 < theta) (h2 : theta < 80) :
    ¬(intoScreen theta ∨ outOfScreen theta) := by
  unfold intoScreen outOfScreen
  push_neg
  exact ⟨by linarith, by linarith⟩

/-- Strictly between the thresholds the arrow height takes its formula
branch, and the absolute value resolves since theta < 90. -/
theorem arrowHeight_of_mid {theta : ℝ} (h1 : -80 < theta) (h2 : theta < 80) :
    arrowHeight theta = ((90 - theta) / 90) * 40 := by
  unfold arrowHeight
  rw [if_neg (not_extreme_of_mid h1 h2), abs_of_pos (by linarith)]

/-- C1: calculateFlux computes B * A * cos(((d - 90) * pi) / 180); the coil
area constant equals 0.0709 * 0.1436 = 0.01018124, and at B = 1,
A = phoneArea, d = 90 the flux equals the area exactly. -/
theorem calculateFlux_formula_and_reference_value :
    (∀ B A d : ℝ,
      calculateFlux B A d = B * A * Real.cos (((d - 90) * Real.pi) / 180)) ∧
    phoneArea = 0.0709 * 0.1436 ∧
    phoneArea = 0.01018124 ∧
    calculateFlux 1 phoneArea 90 = phoneArea := by
  refine ⟨fun B A d => rfl, rfl, ?_, ?_⟩
  · norm_num [phoneArea, screenWidthMeters, screenHeightMeters]
  · unfold calculateFlux
    norm_num

/-- C2: on an EMF sampling tick the new stored EMF equals
-1 * 10 * ((phi - prevPhi) / 1) and the stored previous flux becomes
exactly the phi used in that computation. -/
theorem calculateEmf_tick :
    ∀ s : AppState,
      (calculateEmf s).emf = -1 * 10 * ((s.phi - s.prevPhi) / 1) ∧
      (calculateEmf s).prevPhi = s.phi := by
  intro s
  exact ⟨rfl, rfl⟩

/-- C4: the indicator row shows exactly one configuration for each stored
EMF value: for emf > 0 the left arrow glyph left of the label and no right
arrow, for emf < 0 the right arrow glyph right of the label and no left
arrow, and for emf = 0 the bare label with no directional glyph. -/
theorem indicatorRow_configurations :
    ∀ e : ℝ, indicatorRow e =
      if 0 < e then [RowNode.icon .arrowLongLeft 20, RowNode.label e]
      else if e < 0 then [RowNode.label e, RowNode.icon .arrowLongRight 20]
      else [RowNode.label e] := by
  intro e
  unfold indicatorRow
  rcases lt_trichotomy e 0 with h | h | h
  · rw [if_neg (by push_neg; exact h.le), if_pos h, if_neg (not_lt.2 h.le),
      if_pos h]
    rfl
  · subst h
    norm_num
  · rw [if_pos h, if_neg (not_lt.2 h.le), if_pos h]
    rfl

/-- C5: even grid slots select their glyph by exact thresholds: circle of
size 20 when theta >= 80, circle-with-cross of size 20 when theta <= -80,
else the long downward arrow of size 40; in particular 79.999 selects the
arrow and 80 exactly selects the circle. -/
theorem glyph_selection_thresholds :
    (∀ theta : ℝ, glyphName theta =
      if 80 ≤ theta then .circle
      else if theta ≤ -80 then .circleWithCross
      else .arrowLongDown) ∧
    (∀ theta : ℝ, glyphSize theta = if 80 ≤ theta ∨ theta ≤ -80 then 20 else 40) ∧
    glyphName 79.999 = .arrowLongDown ∧ glyphSize 79.999 = 40 ∧
    glyphName 80 = .circle ∧ glyphSize 80 = 20 ∧
    glyphName (-80) = .circleWithCross ∧ glyphSize (-80) = 20 := by
  refine ⟨fun theta => rfl, fun theta => rfl, ?_, ?_, ?_, ?_, ?_, ?_⟩
  · unfold glyphName outOfScreen intoScreen
    rw [if_neg (by norm_num), if_neg (by norm_num)]
  · unfold glyphSize outOfScreen intoScreen
    rw [if_neg (by push_neg; norm_num)]
  · unfold glyphName outOfScreen
    rw [if_pos (by norm_num)]
  · unfold glyphSize outOfScreen
    rw [if_pos (Or.inl (by norm_num))]
  · unfold glyphName outOfScreen intoScreen
    rw [if_neg (by norm_num), if_pos (by norm_num)]
  · unfold glyphSize intoScreen
    rw [if_pos (Or.inr (by norm_num))]

/-- C7: for every tilt angle the glyph cell keeps a total vertical extent
of exactly 40 units: height 20 with margin 10 at the angle extremes, else
height arrowHeight with margin (40 - arrowHeight) / 2. -/
theorem cell_total_vertical_extent :
    ∀ theta : ℝ,
      cellHeight theta + 2 * cellMarginVertical theta = 40 ∧
      cellHeight theta =
        (if intoScreen theta ∨ outOfScreen theta then 20 else arrowHeight theta) ∧
      cellMarginVertical theta =
        (if intoScreen theta ∨ outOfScreen theta then 10
         else (40 - arrowHeight theta) / 2) := by
  intro theta
  refine ⟨?_, rfl, rfl⟩
  unfold cellHeight cellMarginVertical
  split_ifs
  · norm_num
  · ring

/-- C3: the listener registered by the once-run mount effect closes over
the mount-time theta (the initial 0), so with stored tilt angle 50 a
reading of 50.5 degrees - differing from the stored angle by only 0.5 -
is still accepted and replaces the stored angle, against the claim that
readings differing from the currently stored angle by less than 1 degree
leave it unchanged. -/
theorem listenerStep_ignores_current_theta :
    |(50.5 : ℝ) - 50| < 1 ∧
    (listenerStep initialState.theta { initialState with theta := 50 }
      (50.5 * Real.pi / 180)).theta = 50.5 := by
  constructor
  · norm_num [abs_of_nonneg]
  · have hang : degreesOfRotation (50.5 * Real.pi / 180) = 50.5 := by
      unfold degreesOfRotation
      field_simp
    show (if 1 ≤ |initialState.theta - degreesOfRotation (50.5 * Real.pi / 180)|
        then setThetaAndRecompute { initialState with theta := 50 }
          (degreesOfRotation (50.5 * Real.pi / 180))
        else { initialState with theta := 50 }).theta = 50.5
    rw [hang, show initialState.theta = (0:ℝ) from rfl,
      if_pos (by norm_num [abs_of_nonpos])]
    rfl

/-- C6 counterexample: theta = 79 is closer to the 90-degree reference
than theta = 0, yet its arrow height is strictly smaller, so the height is
not monotonically decreasing in the distance from 90 (it does not shrink
as the device rotates away from 90). -/
theorem arrowHeight_not_decreasing_in_distance :
    (-80 : ℝ) < 79 ∧ (79 : ℝ) < 80 ∧ (-80 : ℝ) < 0 ∧ (0 : ℝ) < 80 ∧
    |(90 : ℝ) - 79| < |(90 : ℝ) - 0| ∧ arrowHeight 79 < arrowHeight 0 := by
  refine ⟨by norm_num, by norm_num, by norm_num, by norm_num,
    by norm_num [abs_of_nonneg], ?_⟩
  rw [arrowHeight_of_mid (by norm_num) (by norm_num),
    arrowHeight_of_mid (by norm_num) (by norm_num : (0:ℝ) < 80)]
  norm_num

/-- C6 amended: for every tilt angle strictly within (-80, 80) the arrow
cell height equals (|90 - theta| / 90) * 40, and this height is
monotonically increasing in the distance of theta from the 90-degree
reference (it grows as the device rotates away from 90 degrees). -/
theorem arrowHeight_formula_and_monotone_in_distance :
    (∀ theta : ℝ, -80 < theta → theta < 80 →
      arrowHeight theta = (|90 - theta| / 90) * 40) ∧
    (∀ t1 t2 : ℝ, -80 < t1 → t1 < 80 → -80 < t2 → t2 < 80 →
      |90 - t1| ≤ |90 - t2| → arrowHeight t1 ≤ arrowHeight t2) := by
  constructor
  · intro theta h1 h2
    unfold arrowHeight
    rw [if_neg (not_extreme_of_mid h1 h2)]
  · intro t1 t2 h1 h2 h3 h4 h
    rw [arrowHeight_of_mid h1 h2, arrowHeight_of_mid h3 h4]
    rw [abs_of_pos (by linarith), abs_of_pos (by linarith)] at h
    gcongr

/-- Witness for the amended C6 at theta = 0 and the pair (79, 0). -/
theorem arrowHeight_formula_and_monotone_in_distance_witness :
    arrowHeight 0 = (|(90 : ℝ) - 0| / 90) * 40 ∧
    arrowHeight 79 ≤ arrowHeight 0 :=
  ⟨arrowHeight_formula_and_monotone_in_distance.1 0 (by norm_num) (by norm_num),
   arrowHeight_formula_and_monotone_in_distance.2 79 0 (by norm_num)
     (by norm_num) (by norm_num) (by norm_num)
     (by norm_num [abs_of_nonneg])⟩

/-- C8: with the sensor reported unavailable, no reading ever changes the
state, the tilt angle stays at its initial 0, no subscriber is registered,
and no removal call is made on unmount. -/
theorem sensor_unavailable_degrades_silently :
    ∀ events : List ℝ,
      runWithSensor false initialState events = initialState ∧
      (runWithSensor false initialState events).theta = 0 ∧
      subscribeOnMount false = none ∧
      removeCalledOnUnmount (subscribeOnMount false) = false := by
  intro events
  exact ⟨rfl, rfl, rfl, rfl⟩

/-- A grid slot is a glyph cell exactly when its index is even. -/
theorem isGlyphCell_gridSlot (theta B : ℝ) (i : ℕ) :
    (gridSlot theta B i).isGlyphCell = decide (i % 2 = 0) := by
  by_cases h : i % 2 = 0 <;> simp [gridSlot, h, Slot.isGlyphCell]

/-- C9: whatever the state, the field-line grid has exactly 50 slots, of
which the 25 even-indexed ones render the glyph cell (with the computed
height, margin, glyph, size and opacity) and the 25 odd-indexed ones
render a spacer of fixed width 60. -/
theorem fieldLineGrid_composition :
    ∀ theta B : ℝ,
      (fieldLineGrid theta B).length = 50 ∧
      ((fieldLineGrid theta B).filter Slot.isGlyphCell).length = 25 ∧
      ((fieldLineGrid theta B).filter (fun s => !s.isGlyphCell)).length = 25 ∧
      ∀ i : ℕ, (fieldLineGrid theta B)[i]? =
        if i < 50 then
          some (if i % 2 = 0 then
            Slot.glyphCell (cellHeight theta) (cellMarginVertical theta)
              (glyphName theta) (glyphSize theta) (B / 10)
          else Slot.spacer 60)
        else none := by
  intro theta B
  refine ⟨by simp [fieldLineGrid], ?_, ?_, ?_⟩
  · rw [fieldLineGrid, List.filter_map]
    simp only [Function.comp_def, isGlyphCell_gridSlot]
    rw [List.length_map]
    decide
  · rw [fieldLineGrid, List.filter_map]
    simp only [Function.comp_def, isGlyphCell_gridSlot]
    rw [List.length_map]
    decide
  · intro i
    by_cases h : i < 50
    · rw [fieldLineGrid, List.getElem?_map, if_pos h]
      simp only [List.getElem?_range, h, if_pos, Option.map_some]
      exact congrArg some rfl
    · rw [fieldLineGrid, List.getElem?_map, if_neg h]
      have : (List.range 50)[i]? = none := by
        simp [List.getElem?_range]
        omega
      rw [this]
      rfl

/-- C10: strictly between -80 and 0 degrees the arrow cell height exceeds
40 (staying below 680/9, about 75.6), the vertical margin is negative, and
the total vertical extent of the cell is still 40. -/
theorem arrow_cell_inverted_margin :
    ∀ theta : ℝ, -80 < theta → theta < 0 →
      40 < arrowHeight theta ∧ arrowHeight theta < 680 / 9 ∧
      cellMarginVertical theta < 0 ∧
      cellHeight theta = arrowHeight theta ∧
      cellHeight theta + 2 * cellMarginVertical theta = 40 := by
  intro theta h1 h2
  have h2' : theta < 80 := by linarith
  have hne := not_extreme_of_mid h1 h2'
  have hah := arrowHeight_of_mid h1 h2'
  have hmv : cellMarginVertical theta = (40 - arrowHeight theta) / 2 := by
    unfold cellMarginVertical
    rw [if_neg hne]
  have hch : cellHeight theta = arrowHeight theta := by
    unfold cellHeight
    rw [if_neg hne]
  have hgt : 40 < arrowHeight theta := by
    rw [hah]
    nlinarith
  refine ⟨hgt, ?_, ?_, hch, ?_⟩
  · rw [hah]
    nlinarith
  · rw [hmv]
    linarith
  · rw [hch, hmv]
    ring

/-- Witness for C10 at theta = -40. -/
theorem arrow_cell_inverted_margin_witness :
    40 < arrowHeight (-40) ∧ arrowHeight (-40) < 680 / 9 ∧
    cellMarginVertical (-40) < 0 ∧
    cellHeight (-40) = arrowHeight (-40) ∧
    cellHeight (-40) + 2 * cellMarginVertical (-40) = 40 :=
  arrow_cell_inverted_margin (-40) (by norm_num) (by norm_num)

end InductionApp
